import Mathlib

/-!
Verification of the OTNS energy-analysis package (`src/energy`).

The Go sources are shallowly embedded:
* `uint64` values are `Nat` together with explicit `% 2^64` reduction
  (`u64add`, `u64sub`), so unsigned wraparound is modelled exactly;
* Go maps (`map[int]float64`, `map[int]uint64`, `map[int]*NodeEnergy`,
  `map[string]*DeviceModel`) are association lists with first-match lookup;
  Go guarantees unique keys, which insertion (`mapStore`) preserves;
* `float64` power-draw and energy values are modelled as exact rationals:
  the claims under study only copy, store and compare these values
  (or are independent of them), so no floating-point rounding is involved;
* fallible Go code (nil-pointer dereference, out-of-range slice index)
  is modelled with `Option`, `none` standing for the runtime panic;
* the global `DeviceModels` registry (configuration data loaded at start)
  is passed as an explicit `reg` parameter.
-/

/-- 2^64, the modulus of Go's `uint64` arithmetic. -/
def U64LIM : Nat := 18446744073709551616

/-- Go `uint64` addition: wraps modulo 2^64. -/
def u64add (a b : Nat) : Nat := (a + b) % U64LIM

/-- Go `uint64` subtraction `a - b`: wraps modulo 2^64. -/
def u64sub (a b : Nat) : Nat := (a + (U64LIM - b % U64LIM)) % U64LIM

/-- Radio states (`RadioStates` from the `types` package, as used by
`src/energy/node.go`): Disabled, Sleep, Tx, Rx and the Invalid marker. -/
inductive RadioStates where
  | RadioDisabled
  | RadioSleep
  | RadioTx
  | RadioRx
  | RadioInvalid
  deriving DecidableEq

/-- First-match lookup in an association list, the embedding of a Go map
read `m[k]` in its `v, ok := m[k]` form. -/
def mapLookup {α : Type} : List (Int × α) → Int → Option α
  | [], _ => none
  | (k, v) :: rest, key => if key = k then some v else mapLookup rest key

/-- Go map read `m[k]` returning the zero value `d` when the key is absent. -/
def mapGetD {α : Type} (m : List (Int × α)) (key : Int) (d : α) : α :=
  (mapLookup m key).getD d

/-- Go map write `m[k] = v`: replaces the (unique) binding of `k`,
or appends a fresh one. -/
def mapStore {α : Type} : List (Int × α) → Int → α → List (Int × α)
  | [], key, val => [(key, val)]
  | (k, v) :: rest, key, val =>
      if key = k then (key, val) :: rest else (k, v) :: mapStore rest key val

/-- First-match lookup in a string-keyed association list
(the embedding of the `DeviceModels` registry map). -/
def lookupString {α : Type} : List (String × α) → String → Option α
  | [], _ => none
  | (k, v) :: rest, key => if key = k then some v else lookupString rest key

/-- `DeviceModel` from `src/energy/devicemodel_types.go`: a power-draw
calibration profile. `TxPowerConsumption` is the dBm -> kW map. -/
structure DeviceModel where
  Name : String
  Description : String
  RxConsumption : ℚ
  SleepConsumption : ℚ
  DisabledConsumption : ℚ
  TxPowerConsumption : List (Int × ℚ)
  deriving DecidableEq

/-- `(dm *DeviceModel) SetTxPowerConsumption` (accessor file of the
`energy` package): stores one tx-power draw entry. The Go nil-map
initialisation check is invisible in the list embedding. -/
def DeviceModel.SetTxPowerConsumption (dm : DeviceModel) (txPower : Int) (c : ℚ) :
    DeviceModel :=
  { dm with TxPowerConsumption := mapStore dm.TxPowerConsumption txPower c }

/-- The literal `undefinedValue := 0.000100000` of
`FindAndAddTxPowerConsumption` (`src/energy/node.go`), exactly 1.0e-4. -/
def undefinedValue : ℚ := 1 / 10000

/-- The scan `for _, k := range txList { if k > txPower { ... } }` of
`FindAndAddTxPowerConsumption`: first element strictly above `txPower`. -/
def findFirstAbove (txPower : Int) : List Int → Option Int
  | [] => none
  | k :: rest => if k > txPower then some k else findFirstAbove txPower rest

/-- Sorting a nonempty list keeps it nonempty (`sort.Ints` precondition for
the `txList[len(txList)-1]` access below). -/
theorem insertionSort_ne_nil {l : List Int} (h : l ≠ []) :
    List.insertionSort (· ≤ ·) l ≠ [] := by
  intro hc
  have hlen := (List.perm_insertionSort (· ≤ ·) l).length_eq
  rw [hc] at hlen
  exact h (List.eq_nil_of_length_eq_zero hlen.symm)

/-- `(node *NodeEnergy) FindAndAddTxPowerConsumption` (`src/energy/node.go`,
lines 124-153), acting on the node's device model: collects the calibrated
levels, handles the empty profile, the clamp-high case
(`txPower > txList[len(txList)-1]`) and otherwise scans the sorted levels
for the nearest higher one. Returns the resolved draw together with the
updated (cache-extended) profile. -/
def FindAndAddTxPowerConsumption (dm : DeviceModel) (txPower : Int) : ℚ × DeviceModel :=
  let txList0 := dm.TxPowerConsumption.map Prod.fst
  if h : txList0 = [] then
    (undefinedValue, dm.SetTxPowerConsumption txPower undefinedValue)
  else
    let txList := List.insertionSort (· ≤ ·) txList0
    let maxK := txList.getLast (insertionSort_ne_nil h)
    if txPower > maxK then
      let maxVal := mapGetD dm.TxPowerConsumption maxK 0
      (maxVal, dm.SetTxPowerConsumption txPower maxVal)
    else
      match findFirstAbove txPower txList with
      | some k =>
          let firstHigherVal := mapGetD dm.TxPowerConsumption k 0
          (firstHigherVal, dm.SetTxPowerConsumption txPower firstHigherVal)
      | none => (undefinedValue, dm)

/-- The transmit-draw resolution step of `CalculateTxEnergy`
(`src/energy/node.go`, lines 112-117): exact map hit, else
`FindAndAddTxPowerConsumption`. -/
def txConsumption (dm : DeviceModel) (txPower : Int) : ℚ × DeviceModel :=
  match mapLookup dm.TxPowerConsumption txPower with
  | some c => (c, dm)
  | none => FindAndAddTxPowerConsumption dm txPower

/-- `NodeMode` (from the `types` package) as used by
`src/energy/node.go`: only the `RxOnWhenIdle` flag is read. -/
structure NodeMode where
  RxOnWhenIdle : Bool
  deriving DecidableEq

/-- `RadioStatus` (from the `radiomodel` package) as used by
`src/energy/node.go`: current state, the four elapsed-time accumulators
(`uint64` microseconds; `SpentTx` maps tx power to time) and the timestamp
of the last accumulation. -/
structure RadioStatus where
  State : RadioStates
  SpentDisabled : Nat
  SpentSleep : Nat
  SpentRx : Nat
  SpentTx : List (Int × Nat)
  Timestamp : Nat
  deriving DecidableEq

/-- `NodeEnergy` (`src/energy/node.go`): per-node tracker. `Model` is the
Go pointer `*DeviceModel`; `none` is the nil pointer (registry miss).
`txPower` stands for the Go `int(*node.txPower)`. The four trailing
rationals are the derived energy fields of snapshot records. -/
structure NodeEnergy where
  NodeId : Int
  Model : Option DeviceModel
  radio : RadioStatus
  txPower : Int
  nodeMode : NodeMode
  Disabled : ℚ
  Sleep : ℚ
  Tx : ℚ
  Rx : ℚ
  deriving DecidableEq

/-- `node.radio.SpentTx[k] += delta` with `uint64` wraparound. -/
def spentTxAdd (m : List (Int × Nat)) (key : Int) (delta : Nat) : List (Int × Nat) :=
  mapStore m key (u64add (mapGetD m key 0) delta)

/-- `(node *NodeEnergy) ComputeRadioState` (`src/energy/node.go`,
lines 51-72): adds `delta = timestamp - node.radio.Timestamp` (uint64
subtraction) to the bucket of the pre-transition state — Sleep goes to the
disabled bucket when `node.nodeMode.RxOnWhenIdle` is set — skips
bookkeeping for Invalid, then sets the timestamp. -/
def ComputeRadioState (node : NodeEnergy) (timestamp : Nat) : NodeEnergy :=
  let delta := u64sub timestamp node.radio.Timestamp
  let r := node.radio
  let r1 :=
    match r.State with
    | RadioStates.RadioDisabled => { r with SpentDisabled := u64add r.SpentDisabled delta }
    | RadioStates.RadioSleep =>
        if node.nodeMode.RxOnWhenIdle then
          { r with SpentDisabled := u64add r.SpentDisabled delta }
        else
          { r with SpentSleep := u64add r.SpentSleep delta }
    | RadioStates.RadioTx => { r with SpentTx := spentTxAdd r.SpentTx node.txPower delta }
    | RadioStates.RadioRx => { r with SpentRx := u64add r.SpentRx delta }
    | RadioStates.RadioInvalid => r
  { node with radio := { r1 with Timestamp := timestamp } }

/-- `(node *NodeEnergy) SetRadioState` (`src/energy/node.go`, lines 74-78):
accumulate first, then switch the state. -/
def SetRadioState (node : NodeEnergy) (state : RadioStates) (timestamp : Nat) : NodeEnergy :=
  let node1 := ComputeRadioState node timestamp
  { node1 with radio := { node1.radio with State := state } }

/-- `newNode` (`src/energy/node.go`, lines 80-96): fresh tracker in state
Disabled, zero accumulators, the given initial timestamp, and the profile
looked up in the registry (`none` = nil pointer when the name is absent). -/
def newNode (reg : List (String × DeviceModel)) (nodeID : Int) (timestamp : Nat)
    (model : String) (txPower : Int) (nodeMode : NodeMode) : NodeEnergy :=
  { NodeId := nodeID
    Model := lookupString reg model
    radio :=
      { State := RadioStates.RadioDisabled
        SpentDisabled := 0
        SpentSleep := 0
        SpentRx := 0
        SpentTx := []
        Timestamp := timestamp }
    txPower := txPower
    nodeMode := nodeMode
    Disabled := 0
    Sleep := 0
    Tx := 0
    Rx := 0 }

/-- `(node *NodeEnergy) SetDeviceModel` (`src/energy/node.go`, lines
99-106): swap the profile if the name is registered (the Go `dm == nil`
check coincides with registry absence in this embedding). -/
def NodeEnergy.SetDeviceModel (reg : List (String × DeviceModel)) (node : NodeEnergy)
    (model : String) : Bool × NodeEnergy :=
  match lookupString reg model with
  | none => (false, node)
  | some dm => (true, { node with Model := some dm })

/-- `CalculateDisabledEnergy` (`src/energy/node.go`): draw times elapsed
time; `none` models the nil-`Model` pointer dereference. -/
def CalculateDisabledEnergy (node : NodeEnergy) : Option ℚ :=
  node.Model.map fun dm => dm.DisabledConsumption * (node.radio.SpentDisabled : ℚ)

/-- `CalculateSleepEnergy` (`src/energy/node.go`). -/
def CalculateSleepEnergy (node : NodeEnergy) : Option ℚ :=
  node.Model.map fun dm => dm.SleepConsumption * (node.radio.SpentSleep : ℚ)

/-- `CalculateRxEnergy` (`src/energy/node.go`). -/
def CalculateRxEnergy (node : NodeEnergy) : Option ℚ :=
  node.Model.map fun dm => dm.RxConsumption * (node.radio.SpentRx : ℚ)

/-- The loop of `CalculateTxEnergy` (`src/energy/node.go`, lines 110-121):
for each tx power with recorded time, resolve the draw (exact hit or
`FindAndAddTxPowerConsumption`, which extends the shared profile) and
accumulate `consumption * timeSpent`. `none` is the nil-`Model` panic. -/
def txEnergyLoop : List (Int × Nat) → Option DeviceModel → ℚ → Option (ℚ × Option DeviceModel)
  | [], model, acc => some (acc, model)
  | (txPower, timeSpent) :: rest, model, acc =>
      match model with
      | none => none
      | some dm =>
          match mapLookup dm.TxPowerConsumption txPower with
          | some c => txEnergyLoop rest (some dm) (acc + c * (timeSpent : ℚ))
          | none =>
              let r := FindAndAddTxPowerConsumption dm txPower
              txEnergyLoop rest (some r.2) (acc + r.1 * (timeSpent : ℚ))

/-- `CalculateTxEnergy` (`src/energy/node.go`): total transmit energy,
together with the possibly cache-extended profile. -/
def CalculateTxEnergy (node : NodeEnergy) : Option (ℚ × Option DeviceModel) :=
  txEnergyLoop node.radio.SpentTx node.Model 0

/-- `NetworkConsumption` (from the `types` package) as used by
`src/energy/core.go`: a network-wide snapshot. -/
structure NetworkConsumption where
  Timestamp : Nat
  EnergyConsDisabled : ℚ
  EnergyConsSleep : ℚ
  EnergyConsTx : ℚ
  EnergyConsRx : ℚ
  deriving DecidableEq

/-- `EnergyAnalyser` (`src/energy/core.go`): node map, the two parallel
history sequences, and the title. -/
structure EnergyAnalyser where
  nodes : List (Int × NodeEnergy)
  networkHistory : List NetworkConsumption
  energyHistoryByNodes : List (List NodeEnergy)
  title : String
  deriving DecidableEq

/-- `NewEnergyAnalyser` (`src/energy/core.go`): empty analyser (slice
capacities are irrelevant to contents). -/
def NewEnergyAnalyser : EnergyAnalyser :=
  { nodes := [], networkHistory := [], energyHistoryByNodes := [], title := "" }

/-- `(e *EnergyAnalyser) AddNode` (`src/energy/core.go`, lines 46-51):
no-op when the id is present, otherwise insert a fresh tracker (map
insertion rendered as append; key order is irrelevant in a Go map). -/
def EnergyAnalyser.AddNode (e : EnergyAnalyser) (reg : List (String × DeviceModel))
    (nodeID : Int) (timestamp : Nat) (model : String) (txPower : Int)
    (nodeMode : NodeMode) : EnergyAnalyser :=
  if (mapLookup e.nodes nodeID).isSome then e
  else { e with nodes := e.nodes ++ [(nodeID, newNode reg nodeID timestamp model txPower nodeMode)] }

/-- `(e *EnergyAnalyser) ClearEnergyData` (`src/energy/core.go`, lines
267-271): reset both histories to fresh empty sequences. -/
def EnergyAnalyser.ClearEnergyData (e : EnergyAnalyser) : EnergyAnalyser :=
  { e with networkHistory := [], energyHistoryByNodes := [] }

/-- `(e *EnergyAnalyser) DeleteNode` (`src/energy/core.go`, lines 53-59):
remove the entry; if the map became empty, clear both histories. -/
def EnergyAnalyser.DeleteNode (e : EnergyAnalyser) (nodeID : Int) : EnergyAnalyser :=
  let e1 := { e with nodes := e.nodes.filter fun p => p.1 != nodeID }
  if e1.nodes.isEmpty then e1.ClearEnergyData else e1

/-- `(e *EnergyAnalyser) GetNode` (`src/energy/core.go`). -/
def EnergyAnalyser.GetNode (e : EnergyAnalyser) (nodeID : Int) : Option NodeEnergy :=
  mapLookup e.nodes nodeID

/-- `(e *EnergyAnalyser) GetLatestEnergyOfNodes` (`src/energy/core.go`,
lines 73-75): the Go code indexes `len-1` unconditionally; `none` models
the out-of-range panic on an empty history. -/
def EnergyAnalyser.GetLatestEnergyOfNodes (e : EnergyAnalyser) : Option (List NodeEnergy) :=
  e.energyHistoryByNodes.getLast?

/-- `(e *EnergyAnalyser) GetNetworkLatestSnap` (`src/energy/core.go`,
lines 77-80): same `len-1` indexing on the network history. -/
def EnergyAnalyser.GetNetworkLatestSnap (e : EnergyAnalyser) : Option NetworkConsumption :=
  e.networkHistory.getLast?

/-- The per-node body of `StoreNetworkEnergy` (`src/energy/core.go`,
lines 89-105): accumulate at the snapshot timestamp, then build the fresh
record `&NodeEnergy{NodeId, Disabled, Sleep, Tx, Rx}` (its remaining
fields are Go zero values, never read). The node keeps the profile
extended by `CalculateTxEnergy`'s caching. `none` is the nil-`Model`
dereference panic inside the energy calculations. -/
def snapNode (timestamp : Nat) (node : NodeEnergy) : Option (NodeEnergy × NodeEnergy) :=
  let n1 := ComputeRadioState node timestamp
  match CalculateDisabledEnergy n1, CalculateSleepEnergy n1, CalculateTxEnergy n1 with
  | some dis, some slp, some (tx, model1) =>
      let n2 := { n1 with Model := model1 }
      match CalculateRxEnergy n2 with
      | some rx =>
          some (n2,
            { NodeId := n1.NodeId
              Model := none
              radio :=
                { State := RadioStates.RadioDisabled
                  SpentDisabled := 0, SpentSleep := 0, SpentRx := 0
                  SpentTx := [], Timestamp := 0 }
              txPower := 0
              nodeMode := { RxOnWhenIdle := false }
              Disabled := dis, Sleep := slp, Tx := tx, Rx := rx })
      | none => none
  | _, _, _ => none

/-- The `for _, node := range e.nodes` loop of `StoreNetworkEnergy`
(`src/energy/core.go`, lines 89-105): per node, accumulate and divide each
energy category by the node count into the running network snapshot, and
append the per-node record to the batch. -/
def storeLoop (timestamp : Nat) (netSize : ℚ) :
    List (Int × NodeEnergy) → NetworkConsumption → List NodeEnergy →
    Option (List (Int × NodeEnergy) × NetworkConsumption × List NodeEnergy)
  | [], snap, batch => some ([], snap, batch)
  | (id, node) :: rest, snap, batch =>
      match snapNode timestamp node with
      | none => none
      | some (node2, en) =>
          let snap2 :=
            { snap with
              EnergyConsDisabled := snap.EnergyConsDisabled + en.Disabled / netSize
              EnergyConsSleep := snap.EnergyConsSleep + en.Sleep / netSize
              EnergyConsTx := snap.EnergyConsTx + en.Tx / netSize
              EnergyConsRx := snap.EnergyConsRx + en.Rx / netSize }
          match storeLoop timestamp netSize rest snap2 (batch ++ [en]) with
          | none => none
          | some (rest2, snapF, batchF) => some ((id, node2) :: rest2, snapF, batchF)

/-- `(e *EnergyAnalyser) StoreNetworkEnergy` (`src/energy/core.go`, lines
82-109): run the per-node loop starting from a zero snapshot carrying the
timestamp, then append the network snapshot and the per-node batch to
their histories in the same step. -/
def EnergyAnalyser.StoreNetworkEnergy (e : EnergyAnalyser) (timestamp : Nat) :
    Option EnergyAnalyser :=
  match storeLoop timestamp (e.nodes.length : ℚ) e.nodes
      { Timestamp := timestamp
        EnergyConsDisabled := 0, EnergyConsSleep := 0
        EnergyConsTx := 0, EnergyConsRx := 0 } [] with
  | none => none
  | some (nodes2, snap, batch) =>
      some { e with
        nodes := nodes2
        networkHistory := e.networkHistory ++ [snap]
        energyHistoryByNodes := e.energyHistoryByNodes ++ [batch] }

/-- `(e *EnergyAnalyser) SetDeviceModel` (`src/energy/core.go`, lines
288-297). The guard returns `false` when the id IS registered; otherwise
`e.nodes[nodeID]` is the nil pointer, on which `NodeEnergy.SetDeviceModel`
returns `false` for an unknown model name (no field access) but faults
writing `node.Model` when the model exists — `none` models that panic. -/
def EnergyAnalyser.SetDeviceModel (e : EnergyAnalyser) (reg : List (String × DeviceModel))
    (nodeID : Int) (model : String) : Option (Bool × EnergyAnalyser) :=
  if (mapLookup e.nodes nodeID).isSome then some (false, e)
  else
    match lookupString reg model with
    | none => some (false, e)
    | some _ => none

/-- `(e *EnergyAnalyser) SetTitle` (`src/energy/core.go`). -/
def EnergyAnalyser.SetTitle (e : EnergyAnalyser) (t : String) : EnergyAnalyser :=
  { e with title := t }

/-- `(e *EnergyAnalyser) DeviceModelExists` (`src/energy/core.go`). -/
def EnergyAnalyser.DeviceModelExists (reg : List (String × DeviceModel)) (model : String) :
    Bool :=
  (lookupString reg model).isSome

/-- In-place mutation of one tracked node, as the simulation does through
`e.GetNode(id).SetRadioState(...)`: rewrite the entry for `nodeID`. -/
def EnergyAnalyser.updateNode (e : EnergyAnalyser) (nodeID : Int)
    (f : NodeEnergy → NodeEnergy) : EnergyAnalyser :=
  { e with nodes := e.nodes.map fun p => if p.1 = nodeID then (p.1, f p.2) else p }

/-- Analyser states reachable from `NewEnergyAnalyser` through the
operations of `src/energy/core.go` (registry contents and call parameters
arbitrary at every step). -/
inductive Reachable : EnergyAnalyser → Prop where
  | init : Reachable NewEnergyAnalyser
  | addNode (reg nodeID timestamp model txPower nodeMode) {e} :
      Reachable e → Reachable (e.AddNode reg nodeID timestamp model txPower nodeMode)
  | deleteNode (nodeID) {e} : Reachable e → Reachable (e.DeleteNode nodeID)
  | store (timestamp) {e e'} :
      Reachable e → e.StoreNetworkEnergy timestamp = some e' → Reachable e'
  | clear {e} : Reachable e → Reachable e.ClearEnergyData
  | setTitle (t) {e} : Reachable e → Reachable (e.SetTitle t)
  | setDeviceModel (reg nodeID model) {e b e'} :
      Reachable e → e.SetDeviceModel reg nodeID model = some (b, e') → Reachable e'
  | setRadio (nodeID s timestamp) {e} :
      Reachable e → Reachable (e.updateNode nodeID fun n => SetRadioState n s timestamp)

/-- Sum of the four time buckets of a tracker (the conserved quantity). -/
def spentTxTotal (m : List (Int × Nat)) : Nat := (m.map Prod.snd).sum

/-- disabled + sleep + receive + total transmit time of a node. -/
def bucketSum (n : NodeEnergy) : Nat :=
  n.radio.SpentDisabled + n.radio.SpentSleep + n.radio.SpentRx + spentTxTotal n.radio.SpentTx

/-- Non-decreasing timestamps below 2^64 along a call sequence, starting
from a given last-accumulation timestamp. -/
def chainNondec : Nat → List (RadioStates × Nat) → Bool
  | _, [] => true
  | t, c :: cs => decide (t ≤ c.2) && decide (c.2 < U64LIM) && chainNondec c.2 cs

/-- No call in the sequence sets the Invalid state. -/
def noInvalid : List (RadioStates × Nat) → Bool
  | [] => true
  | c :: cs => decide (c.1 ≠ RadioStates.RadioInvalid) && noInvalid cs

/-- Apply a sequence of `SetRadioState` calls to a tracker. -/
def runCalls : NodeEnergy → List (RadioStates × Nat) → NodeEnergy
  | n, [] => n
  | n, c :: cs => runCalls (SetRadioState n c.1 c.2) cs

/-- Final timestamp of a call sequence (the start time when empty). -/
def finalT : Nat → List (RadioStates × Nat) → Nat
  | t, [] => t
  | _, c :: cs => finalT c.2 cs

/-! ### Concrete instances used to exercise the definitions -/

/-- A profile with the calibrated levels {-20,-10,0,10,20} of the
interpolation-determinism example (draw values arbitrary but distinct). -/
def demoModel : DeviceModel :=
  { Name := "demo"
    Description := "five calibrated levels"
    RxConsumption := 0
    SleepConsumption := 0
    DisabledConsumption := 0
    TxPowerConsumption :=
      [(-20, 3 / 100000), (-10, 5 / 100000), (0, 8 / 100000),
       (10, 12 / 100000), (20, 20 / 100000)] }

/-- The `stm32wb55rg` entry of the `DeviceModels` registry
(`src/energy/devicemodel_types.go`), draws as exact decimals. -/
def stm32wb55rg : DeviceModel :=
  { Name := "STM32WB55RG"
    Description := "U=3.3V-all data from datasheet"
    RxConsumption := 1485 / 100000000
    SleepConsumption := 1485 / 100000000
    DisabledConsumption := 11 / 100000000
    TxPowerConsumption := [(0, 1716 / 100000000)] }

/-- A one-entry registry holding `stm32wb55rg`. -/
def demoRegistry : List (String × DeviceModel) := [("stm32wb55rg", stm32wb55rg)]

/-- A sleeping tracker whose node mode has `RxOnWhenIdle` set. -/
def sleepRxIdleNode : NodeEnergy :=
  { NodeId := 1
    Model := none
    radio :=
      { State := RadioStates.RadioSleep
        SpentDisabled := 0, SpentSleep := 0, SpentRx := 0
        SpentTx := [], Timestamp := 0 }
    txPower := 0
    nodeMode := { RxOnWhenIdle := true }
    Disabled := 0, Sleep := 0, Tx := 0, Rx := 0 }

/-- A disabled tracker last accumulated at timestamp 10 (for querying an
earlier timestamp). -/
def disabledLateNode : NodeEnergy :=
  { NodeId := 2
    Model := none
    radio :=
      { State := RadioStates.RadioDisabled
        SpentDisabled := 0, SpentSleep := 0, SpentRx := 0
        SpentTx := [], Timestamp := 10 }
    txPower := 0
    nodeMode := { RxOnWhenIdle := false }
    Disabled := 0, Sleep := 0, Tx := 0, Rx := 0 }

/-- An analyser tracking exactly one node, with one captured snapshot in
each history. -/
def oneNodeAnalyser : EnergyAnalyser :=
  { nodes := [(7, newNode demoRegistry 7 0 "stm32wb55rg" 0 { RxOnWhenIdle := false })]
    networkHistory := [{ Timestamp := 3, EnergyConsDisabled := 0, EnergyConsSleep := 0,
                         EnergyConsTx := 0, EnergyConsRx := 0 }]
    energyHistoryByNodes := [[]]
    title := "" }

/-! ### Unsigned 64-bit arithmetic lemmas -/

theorem u64add_eq {a b : Nat} (h : a + b < U64LIM) : u64add a b = a + b :=
  Nat.mod_eq_of_lt h

theorem u64sub_of_le {a b : Nat} (hb : b ≤ a) (ha : a < U64LIM) :
    u64sub a b = a - b := by
  unfold u64sub
  rw [Nat.mod_eq_of_lt (lt_of_le_of_lt hb ha)]
  have he : a + (U64LIM - b) = (a - b) + U64LIM := by omega
  rw [he, Nat.add_mod_right]
  exact Nat.mod_eq_of_lt (by omega)

theorem u64sub_of_lt {a b : Nat} (h : a < b) (hb : b < U64LIM) :
    u64sub a b = U64LIM - (b - a) := by
  unfold u64sub
  rw [Nat.mod_eq_of_lt hb]
  have he : a + (U64LIM - b) = U64LIM - (b - a) := by omega
  rw [he]
  exact Nat.mod_eq_of_lt (by omega)

/-! ### Association-list map lemmas -/

theorem mapLookup_store_self {α : Type} (m : List (Int × α)) (k : Int) (v : α) :
    mapLookup (mapStore m k v) k = some v := by
  induction m with
  | nil => simp [mapStore, mapLookup]
  | cons p rest ih =>
      obtain ⟨k0, v0⟩ := p
      by_cases h : k = k0
      · simp [mapStore, h, mapLookup]
      · simp [mapStore, h, mapLookup, ih]

theorem mapLookup_none_iff {α : Type} (m : List (Int × α)) (key : Int) :
    mapLookup m key = none ↔ key ∉ m.map Prod.fst := by
  induction m with
  | nil => simp [mapLookup]
  | cons p rest ih =>
      obtain ⟨k0, v0⟩ := p
      by_cases h : key = k0 <;> simp [mapLookup, h, ih]

theorem mapGetD_le_total (m : List (Int × Nat)) (k : Int) :
    mapGetD m k 0 ≤ spentTxTotal m := by
  induction m with
  | nil => simp [mapGetD, mapLookup, spentTxTotal]
  | cons p rest ih =>
      obtain ⟨k0, v0⟩ := p
      simp only [mapGetD, mapLookup, spentTxTotal, List.map_cons, List.sum_cons] at *
      by_cases h : k = k0
      · simp [h]
      · simp only [if_neg h]
        omega

theorem total_store (m : List (Int × Nat)) (k : Int) (v : Nat) :
    spentTxTotal (mapStore m k v) + mapGetD m k 0 = spentTxTotal m + v := by
  induction m with
  | nil => simp [mapStore, spentTxTotal, mapGetD, mapLookup]
  | cons p rest ih =>
      obtain ⟨k0, v0⟩ := p
      by_cases h : k = k0
      · simp only [mapStore, if_pos h, spentTxTotal, mapGetD, mapLookup, List.map_cons,
          List.sum_cons, Option.getD_some]
        omega
      · simp only [mapStore, if_neg h, spentTxTotal, mapGetD, mapLookup, List.map_cons,
          List.sum_cons] at *
        omega

theorem spentTxAdd_total (m : List (Int × Nat)) (k : Int) (d : Nat)
    (h : mapGetD m k 0 + d < U64LIM) :
    spentTxTotal (spentTxAdd m k d) = spentTxTotal m + d := by
  unfold spentTxAdd
  rw [u64add_eq h]
  have := total_store m k (mapGetD m k 0 + d)
  omega

/-! ### Sorted-list and scan lemmas -/

theorem sorted_le_getLast :
    ∀ (l : List Int), List.Sorted (· ≤ ·) l → ∀ (h : l ≠ []) (x : Int), x ∈ l →
      x ≤ l.getLast h := by
  intro l
  induction l with
  | nil => intro _ h; exact absurd rfl h
  | cons a t ih =>
      intro hs h x hx
      cases t with
      | nil =>
          simp only [List.mem_singleton] at hx
          simp [hx, List.getLast]
      | cons b t2 =>
          rw [List.sorted_cons] at hs
          obtain ⟨ha, hs2⟩ := hs
          rw [List.getLast_cons_cons]
          rcases List.mem_cons.mp hx with rfl | hx2
          · exact ha _ (List.getLast_mem _)
          · exact ih hs2 (List.cons_ne_nil _ _) x hx2

theorem ffa_some {t : Int} :
    ∀ {l : List Int} {k : Int}, findFirstAbove t l = some k → t < k ∧ k ∈ l := by
  intro l
  induction l with
  | nil => intro k h; simp [findFirstAbove] at h
  | cons a rest ih =>
      intro k h
      simp only [findFirstAbove] at h
      by_cases ha : a > t
      · rw [if_pos ha] at h
        obtain rfl := Option.some.inj h
        exact ⟨ha, List.mem_cons_self _ _⟩
      · rw [if_neg ha] at h
        obtain ⟨h1, h2⟩ := ih h
        exact ⟨h1, List.mem_cons_of_mem _ h2⟩

theorem ffa_none {t : Int} :
    ∀ {l : List Int}, findFirstAbove t l = none → ∀ x ∈ l, x ≤ t := by
  intro l
  induction l with
  | nil => intro _ x hx; simp at hx
  | cons a rest ih =>
      intro h x hx
      simp only [findFirstAbove] at h
      by_cases ha : a > t
      · rw [if_pos ha] at h; cases h
      · rw [if_neg ha] at h
        rcases List.mem_cons.mp hx with rfl | hx2
        · omega
        · exact ih h x hx2

theorem ffa_least {t : Int} :
    ∀ {l : List Int}, List.Sorted (· ≤ ·) l →
      ∀ {k : Int}, findFirstAbove t l = some k → ∀ j ∈ l, t < j → k ≤ j := by
  intro l
  induction l with
  | nil => intro _ k h; simp [findFirstAbove] at h
  | cons a rest ih =>
      intro hs k h j hj htj
      rw [List.sorted_cons] at hs
      obtain ⟨ha, hs2⟩ := hs
      simp only [findFirstAbove] at h
      by_cases hat : a > t
      · rw [if_pos hat] at h
        obtain rfl := Option.some.inj h
        rcases List.mem_cons.mp hj with rfl | hj2
        · exact le_refl _
        · exact ha j hj2
      · rw [if_neg hat] at h
        rcases List.mem_cons.mp hj with rfl | hj2
        · omega
        · exact ih hs2 h j hj2 htj

/-- On a level truly absent from the profile, `FindAndAddTxPowerConsumption`
always caches the value it returns. -/
theorem findAndAdd_caches (dm : DeviceModel) (level : Int)
    (hl : mapLookup dm.TxPowerConsumption level = none) :
    ∃ v, FindAndAddTxPowerConsumption dm level =
      (v, dm.SetTxPowerConsumption level v) := by
  unfold FindAndAddTxPowerConsumption
  by_cases h0 : dm.TxPowerConsumption.map Prod.fst = []
  · rw [dif_pos h0]
    exact ⟨undefinedValue, rfl⟩
  · rw [dif_neg h0]
    by_cases hmax :
        level >
          (List.insertionSort (· ≤ ·) (dm.TxPowerConsumption.map Prod.fst)).getLast
            (insertionSort_ne_nil h0)
    · simp only [if_pos hmax]
      exact ⟨_, rfl⟩
    · simp only [if_neg hmax]
      cases hf : findFirstAbove level
          (List.insertionSort (· ≤ ·) (dm.TxPowerConsumption.map Prod.fst)) with
      | some k => exact ⟨_, rfl⟩
      | none =>
          exfalso
          have hlastmem :
              (List.insertionSort (· ≤ ·) (dm.TxPowerConsumption.map Prod.fst)).getLast
                (insertionSort_ne_nil h0) ∈
                List.insertionSort (· ≤ ·) (dm.TxPowerConsumption.map Prod.fst) :=
            List.getLast_mem _
          have hle := ffa_none hf _ hlastmem
          have heq :
              (List.insertionSort (· ≤ ·) (dm.TxPowerConsumption.map Prod.fst)).getLast
                (insertionSort_ne_nil h0) = level := by omega
          have hmem2 : level ∈ dm.TxPowerConsumption.map Prod.fst :=
            (List.mem_insertionSort (· ≤ ·)).mp (heq ▸ hlastmem)
          exact (mapLookup_none_iff _ _).mp hl hmem2

/-- C2: Transmit-draw resolution. For every profile and queried level, the
resolution step of `CalculateTxEnergy` returns the calibrated draw on an
exact match; returns the default constant 1.0e-4 when the level mapping is
empty; returns the draw of the maximum calibrated level when the level
exceeds every calibrated one (clamp-high); otherwise returns the draw of
the smallest calibrated level strictly greater than the query
(nearest-higher); in every non-exact-match case the resolved value is
cached into the profile, so a repeated query returns the identical cached
value. -/
theorem C2_transmit_draw_resolution (dm : DeviceModel) (level : Int) :
    (∀ v, mapLookup dm.TxPowerConsumption level = some v →
        txConsumption dm level = (v, dm)) ∧
    (dm.TxPowerConsumption = [] →
        txConsumption dm level =
          (undefinedValue, dm.SetTxPowerConsumption level undefinedValue) ∧
        undefinedValue = 1 / 10000) ∧
    ((∀ k ∈ dm.TxPowerConsumption.map Prod.fst, k < level) →
        dm.TxPowerConsumption ≠ [] →
        ∃ kmax ∈ dm.TxPowerConsumption.map Prod.fst,
          (∀ k ∈ dm.TxPowerConsumption.map Prod.fst, k ≤ kmax) ∧
          txConsumption dm level =
            (mapGetD dm.TxPowerConsumption kmax 0,
             dm.SetTxPowerConsumption level (mapGetD dm.TxPowerConsumption kmax 0))) ∧
    (mapLookup dm.TxPowerConsumption level = none →
        ∀ k0 ∈ dm.TxPowerConsumption.map Prod.fst, level < k0 →
        ∃ k ∈ dm.TxPowerConsumption.map Prod.fst,
          level < k ∧
          (∀ j ∈ dm.TxPowerConsumption.map Prod.fst, level < j → k ≤ j) ∧
          txConsumption dm level =
            (mapGetD dm.TxPowerConsumption k 0,
             dm.SetTxPowerConsumption level (mapGetD dm.TxPowerConsumption k 0))) ∧
    (∀ v dm', txConsumption dm level = (v, dm') →
        txConsumption dm' level = (v, dm')) := by
  refine ⟨?_, ?_, ?_, ?_, ?_⟩
  · intro v hv
    unfold txConsumption
    rw [hv]
  · intro h0
    refine ⟨?_, rfl⟩
    simp [txConsumption, FindAndAddTxPowerConsumption, h0, mapLookup]
  · intro hall hne
    have h0 : dm.TxPowerConsumption.map Prod.fst ≠ [] :=
      fun hc => hne (List.map_eq_nil_iff.mp hc)
    have hlookup : mapLookup dm.TxPowerConsumption level = none :=
      (mapLookup_none_iff _ _).mpr fun hm => absurd (hall level hm) (lt_irrefl _)
    have hsorted :
        List.Sorted (· ≤ ·)
          (List.insertionSort (· ≤ ·) (dm.TxPowerConsumption.map Prod.fst)) :=
      List.sorted_insertionSort _ _
    have hlastmem :
        (List.insertionSort (· ≤ ·) (dm.TxPowerConsumption.map Prod.fst)).getLast
            (insertionSort_ne_nil h0) ∈
          List.insertionSort (· ≤ ·) (dm.TxPowerConsumption.map Prod.fst) :=
      List.getLast_mem _
    refine ⟨(List.insertionSort (· ≤ ·) (dm.TxPowerConsumption.map Prod.fst)).getLast
        (insertionSort_ne_nil h0), ?_, ?_, ?_⟩
    · exact (List.mem_insertionSort (· ≤ ·)).mp hlastmem
    · intro k hk
      exact sorted_le_getLast _ hsorted _ k ((List.mem_insertionSort (· ≤ ·)).mpr hk)
    · have hmaxlt :
          (List.insertionSort (· ≤ ·) (dm.TxPowerConsumption.map Prod.fst)).getLast
              (insertionSort_ne_nil h0) < level :=
        hall _ ((List.mem_insertionSort (· ≤ ·)).mp hlastmem)
      simp [txConsumption, hlookup, FindAndAddTxPowerConsumption, h0, hmaxlt]
  · intro hnone k0 hk0 hlt
    have h0 : dm.TxPowerConsumption.map Prod.fst ≠ [] := by
      intro hc
      rw [hc] at hk0
      exact absurd hk0 (List.not_mem_nil _)
    have hsorted :
        List.Sorted (· ≤ ·)
          (List.insertionSort (· ≤ ·) (dm.TxPowerConsumption.map Prod.fst)) :=
      List.sorted_insertionSort _ _
    have hk0s : k0 ∈ List.insertionSort (· ≤ ·) (dm.TxPowerConsumption.map Prod.fst) :=
      (List.mem_insertionSort (· ≤ ·)).mpr hk0
    have hub :
        k0 ≤ (List.insertionSort (· ≤ ·) (dm.TxPowerConsumption.map Prod.fst)).getLast
          (insertionSort_ne_nil h0) :=
      sorted_le_getLast _ hsorted _ k0 hk0s
    have hnotmax :
        ¬ (List.insertionSort (· ≤ ·) (dm.TxPowerConsumption.map Prod.fst)).getLast
            (insertionSort_ne_nil h0) < level := by omega
    cases hf : findFirstAbove level
        (List.insertionSort (· ≤ ·) (dm.TxPowerConsumption.map Prod.fst)) with
    | none =>
        exfalso
        have := ffa_none hf k0 hk0s
        omega
    | some k =>
        obtain ⟨hkgt, hkmemTL⟩ := ffa_some hf
        refine ⟨k, (List.mem_insertionSort (· ≤ ·)).mp hkmemTL, hkgt, ?_, ?_⟩
        · intro j hj hjgt
          exact ffa_least hsorted hf j ((List.mem_insertionSort (· ≤ ·)).mpr hj) hjgt
        · simp [txConsumption, hnone, FindAndAddTxPowerConsumption, h0, hnotmax, hf]
  · intro v dm' h
    cases hl : mapLookup dm.TxPowerConsumption level with
    | some c =>
        simp only [txConsumption, hl] at h
        injection h with h1 h2
        subst h1
        subst h2
        simp only [txConsumption, hl]
    | none =>
        simp only [txConsumption, hl] at h
        obtain ⟨w, hw⟩ := findAndAdd_caches dm level hl
        rw [hw] at h
        injection h with h1 h2
        subst h1
        subst h2
        have hstored :
            mapLookup (dm.SetTxPowerConsumption level w).TxPowerConsumption level = some w :=
          mapLookup_store_self _ _ _
        simp only [txConsumption, hstored]

/-- Witness for C2: on the {-20,-10,0,10,20} profile, querying level 5
resolves by the nearest-higher rule, to the draw calibrated at level 10,
and caches it. -/
theorem C2_witness :
    ∃ k ∈ demoModel.TxPowerConsumption.map Prod.fst,
      (5 : Int) < k ∧
      (∀ j ∈ demoModel.TxPowerConsumption.map Prod.fst, (5 : Int) < j → k ≤ j) ∧
      txConsumption demoModel 5 =
        (mapGetD demoModel.TxPowerConsumption k 0,
         demoModel.SetTxPowerConsumption 5 (mapGetD demoModel.TxPowerConsumption k 0)) :=
  (C2_transmit_draw_resolution demoModel 5).2.2.2.1 (by decide) 10 (by decide) (by decide)

/-! ### Time conservation machinery -/

theorem bucketSum_setRadioState (n : NodeEnergy) (s : RadioStates) (t : Nat) :
    bucketSum (SetRadioState n s t) = bucketSum (ComputeRadioState n t) := rfl

theorem setRadioState_Timestamp (n : NodeEnergy) (s : RadioStates) (t : Nat) :
    (SetRadioState n s t).radio.Timestamp = t := rfl

theorem setRadioState_State (n : NodeEnergy) (s : RadioStates) (t : Nat) :
    (SetRadioState n s t).radio.State = s := rfl

/-- When the pre-transition state keeps a bucket (it is not Invalid) and the
total cannot overflow, `ComputeRadioState` grows the bucket sum by exactly
the computed delta. -/
theorem computeRadioState_bucketSum (n : NodeEnergy) (t : Nat)
    (h4 : n.radio.State ≠ RadioStates.RadioInvalid)
    (hwrap : bucketSum n + u64sub t n.radio.Timestamp < U64LIM) :
    bucketSum (ComputeRadioState n t) = bucketSum n + u64sub t n.radio.Timestamp := by
  unfold bucketSum at hwrap ⊢
  cases hstate : n.radio.State with
  | RadioDisabled =>
      simp only [ComputeRadioState, hstate]
      rw [u64add_eq (by omega)]
      omega
  | RadioSleep =>
      cases hm : n.nodeMode.RxOnWhenIdle with
      | true =>
          simp only [ComputeRadioState, hstate, hm, if_pos]
          rw [u64add_eq (by omega)]
          omega
      | false =>
          simp only [ComputeRadioState, hstate, hm, Bool.false_eq_true, if_false]
          rw [u64add_eq (by omega)]
          omega
  | RadioTx =>
      simp only [ComputeRadioState, hstate]
      have hget := mapGetD_le_total n.radio.SpentTx n.txPower
      rw [spentTxAdd_total _ _ _ (by omega)]
      omega
  | RadioRx =>
      simp only [ComputeRadioState, hstate]
      rw [u64add_eq (by omega)]
      omega
  | RadioInvalid => exact absurd hstate h4

/-- One `SetRadioState` call at a non-decreasing timestamp preserves the
conservation invariant. -/
theorem setRadioState_invariant (n : NodeEnergy) (t0 : Nat) (s : RadioStates) (t : Nat)
    (h1 : t0 ≤ n.radio.Timestamp) (_h2 : n.radio.Timestamp < U64LIM)
    (h3 : bucketSum n + t0 = n.radio.Timestamp)
    (h4 : n.radio.State ≠ RadioStates.RadioInvalid)
    (hle : n.radio.Timestamp ≤ t) (ht : t < U64LIM)
    (hs : s ≠ RadioStates.RadioInvalid) :
    t0 ≤ (SetRadioState n s t).radio.Timestamp ∧
    (SetRadioState n s t).radio.Timestamp < U64LIM ∧
    bucketSum (SetRadioState n s t) + t0 = (SetRadioState n s t).radio.Timestamp ∧
    (SetRadioState n s t).radio.State ≠ RadioStates.RadioInvalid := by
  have hdelta : u64sub t n.radio.Timestamp = t - n.radio.Timestamp :=
    u64sub_of_le hle ht
  have hbs : bucketSum (SetRadioState n s t) = bucketSum n + (t - n.radio.Timestamp) := by
    rw [bucketSum_setRadioState,
      computeRadioState_bucketSum n t h4 (by rw [hdelta]; omega), hdelta]
  rw [setRadioState_Timestamp, setRadioState_State, hbs]
  exact ⟨le_trans h1 hle, ht, by omega, hs⟩

/-- Folding a chain of non-decreasing, never-Invalid `SetRadioState` calls
preserves the conservation invariant and lands on the final timestamp. -/
theorem runCalls_invariant :
    ∀ (calls : List (RadioStates × Nat)) (n : NodeEnergy) (t0 : Nat),
      t0 ≤ n.radio.Timestamp → n.radio.Timestamp < U64LIM →
      bucketSum n + t0 = n.radio.Timestamp →
      n.radio.State ≠ RadioStates.RadioInvalid →
      chainNondec n.radio.Timestamp calls = true → noInvalid calls = true →
      bucketSum (runCalls n calls) + t0 = finalT n.radio.Timestamp calls := by
  intro calls
  induction calls with
  | nil =>
      intro n t0 _ _ h3 _ _ _
      simpa [runCalls, finalT] using h3
  | cons c cs ih =>
      intro n t0 h1 h2 h3 h4 hchain hninv
      simp only [chainNondec, Bool.and_eq_true, decide_eq_true_eq] at hchain
      obtain ⟨⟨hle, hclim⟩, hchain2⟩ := hchain
      simp only [noInvalid, Bool.and_eq_true, decide_eq_true_eq] at hninv
      obtain ⟨hcinv, hninv2⟩ := hninv
      obtain ⟨g1, g2, g3, g4⟩ :=
        setRadioState_invariant n t0 c.1 c.2 h1 h2 h3 h4 hle hclim hcinv
      have hts : (SetRadioState n c.1 c.2).radio.Timestamp = c.2 :=
        setRadioState_Timestamp n c.1 c.2
      have hrec := ih (SetRadioState n c.1 c.2) t0 g1 g2 g3 g4
        (by rw [hts]; exact hchain2) hninv2
      rw [hts] at hrec
      simpa [runCalls, finalT] using hrec

/-- C1 (amended): Time conservation. For a node created at timestamp `t0`
in state Disabled and any sequence of `SetRadioState` calls with
non-decreasing timestamps below 2^64 none of which sets the Invalid state,
`disabledTime + sleepTime + receiveTime + Σ transmitTime` equals
`finalTimestamp - t0`. (The original claim, quantifying over ALL call
sequences, fails: a call setting Invalid makes the next accumulation skip
its bookkeeping, losing the elapsed time — see the counterexample.) -/
theorem C1_time_conservation (reg : List (String × DeviceModel)) (nodeID : Int)
    (t0 : Nat) (model : String) (txPower : Int) (nodeMode : NodeMode)
    (calls : List (RadioStates × Nat))
    (h0 : t0 < U64LIM) (hchain : chainNondec t0 calls = true)
    (hninv : noInvalid calls = true) :
    bucketSum (runCalls (newNode reg nodeID t0 model txPower nodeMode) calls) =
      finalT t0 calls - t0 := by
  have hmain := runCalls_invariant calls (newNode reg nodeID t0 model txPower nodeMode) t0
    (le_refl _) h0 (by simp [bucketSum, newNode, spentTxTotal])
    (by simp [newNode]) hchain hninv
  have hts : (newNode reg nodeID t0 model txPower nodeMode).radio.Timestamp = t0 := rfl
  rw [hts] at hmain
  omega

/-- Witness for C1: a Disabled(1..3) then Tx(3..10) run accumulates
exactly 10 - 1 microseconds. -/
theorem C1_witness :
    bucketSum (runCalls (newNode [] 1 1 "m" 0 { RxOnWhenIdle := false })
        [(RadioStates.RadioTx, 3), (RadioStates.RadioRx, 10)]) =
      finalT 1 [(RadioStates.RadioTx, 3), (RadioStates.RadioRx, 10)] - 1 :=
  C1_time_conservation [] 1 1 "m" 0 { RxOnWhenIdle := false }
    [(RadioStates.RadioTx, 3), (RadioStates.RadioRx, 10)]
    (by decide) (by decide) (by decide)

/-- Counterexample to C1 as stated: the call sequence
`[(Invalid, 0), (Disabled, 10)]` has non-decreasing timestamps, yet the
bucket sum of the resulting tracker is 0 while `tf - t0 = 10`: the 10
microseconds spent in the Invalid state are attributed to no bucket. -/
theorem C1_counterexample :
    chainNondec 0 [(RadioStates.RadioInvalid, 0), (RadioStates.RadioDisabled, 10)] = true ∧
    finalT 0 [(RadioStates.RadioInvalid, 0), (RadioStates.RadioDisabled, 10)] - 0 = 10 ∧
    bucketSum (runCalls (newNode [] 1 0 "m" 0 { RxOnWhenIdle := false })
        [(RadioStates.RadioInvalid, 0), (RadioStates.RadioDisabled, 10)]) = 0 ∧
    (0 : Nat) ≠ 10 := by
  refine ⟨by decide, by decide, by decide, by decide⟩

/-- C3 (amended): Sleep-bucket attribution. When the pre-transition state
is Sleep, `ComputeRadioState` adds the whole delta to the sleep-time
accumulator and to no other — but only when the node's mode has
`RxOnWhenIdle` unset; when `RxOnWhenIdle` is set the whole delta goes to
the disabled-time accumulator instead (and to no other). (The original
claim, "regardless of any other node attribute", fails on nodes with
`RxOnWhenIdle` — see the counterexample.) -/
theorem C3_sleep_attribution (n : NodeEnergy) (t : Nat)
    (h : n.radio.State = RadioStates.RadioSleep) :
    (ComputeRadioState n t).radio.Timestamp = t ∧
    (ComputeRadioState n t).radio.State = RadioStates.RadioSleep ∧
    (n.nodeMode.RxOnWhenIdle = false →
      (ComputeRadioState n t).radio.SpentSleep =
        u64add n.radio.SpentSleep (u64sub t n.radio.Timestamp) ∧
      (ComputeRadioState n t).radio.SpentDisabled = n.radio.SpentDisabled ∧
      (ComputeRadioState n t).radio.SpentRx = n.radio.SpentRx ∧
      (ComputeRadioState n t).radio.SpentTx = n.radio.SpentTx) ∧
    (n.nodeMode.RxOnWhenIdle = true →
      (ComputeRadioState n t).radio.SpentDisabled =
        u64add n.radio.SpentDisabled (u64sub t n.radio.Timestamp) ∧
      (ComputeRadioState n t).radio.SpentSleep = n.radio.SpentSleep ∧
      (ComputeRadioState n t).radio.SpentRx = n.radio.SpentRx ∧
      (ComputeRadioState n t).radio.SpentTx = n.radio.SpentTx) := by
  cases hm : n.nodeMode.RxOnWhenIdle <;> simp [ComputeRadioState, h, hm]

/-- Witness for C3: a sleeping node with `RxOnWhenIdle` set accumulates
into the disabled bucket and leaves the other accumulators alone. -/
theorem C3_witness :
    (ComputeRadioState sleepRxIdleNode 7).radio.SpentDisabled =
      u64add sleepRxIdleNode.radio.SpentDisabled
        (u64sub 7 sleepRxIdleNode.radio.Timestamp) ∧
    (ComputeRadioState sleepRxIdleNode 7).radio.SpentSleep =
      sleepRxIdleNode.radio.SpentSleep ∧
    (ComputeRadioState sleepRxIdleNode 7).radio.SpentRx =
      sleepRxIdleNode.radio.SpentRx ∧
    (ComputeRadioState sleepRxIdleNode 7).radio.SpentTx =
      sleepRxIdleNode.radio.SpentTx :=
  (C3_sleep_attribution sleepRxIdleNode 7 rfl).2.2.2 rfl

/-- Counterexample to C3 as stated: `sleepRxIdleNode` is in state Sleep,
the delta at timestamp 7 is 7, yet its sleep-time accumulator stays 0 and
the disabled-time accumulator receives the 7 microseconds. -/
theorem C3_counterexample :
    sleepRxIdleNode.radio.State = RadioStates.RadioSleep ∧
    u64sub 7 sleepRxIdleNode.radio.Timestamp = 7 ∧
    (ComputeRadioState sleepRxIdleNode 7).radio.SpentSleep = 0 ∧
    (ComputeRadioState sleepRxIdleNode 7).radio.SpentDisabled = 7 :=
  ⟨rfl, by decide, by decide, by decide⟩

/-- C10: Clock-regression wraparound. When `ComputeRadioState` is called
with a timestamp strictly smaller than the stored one (both below 2^64),
the unsigned subtraction wraps: the computed delta is
`2^64 - (lastTimestamp - timestamp)`, that delta is added (with `uint64`
addition) to the current state's time bucket, the timestamp is set
backwards, and no error, clamp or trap occurs (the function is total). -/
theorem C10_clock_regression (n : NodeEnergy) (t : Nat)
    (h1 : t < n.radio.Timestamp) (h2 : n.radio.Timestamp < U64LIM) :
    u64sub t n.radio.Timestamp = U64LIM - (n.radio.Timestamp - t) ∧
    (ComputeRadioState n t).radio.Timestamp = t ∧
    (n.radio.State = RadioStates.RadioDisabled →
      (ComputeRadioState n t).radio.SpentDisabled =
        u64add n.radio.SpentDisabled (U64LIM - (n.radio.Timestamp - t))) ∧
    (n.radio.State = RadioStates.RadioSleep → n.nodeMode.RxOnWhenIdle = false →
      (ComputeRadioState n t).radio.SpentSleep =
        u64add n.radio.SpentSleep (U64LIM - (n.radio.Timestamp - t))) ∧
    (n.radio.State = RadioStates.RadioSleep → n.nodeMode.RxOnWhenIdle = true →
      (ComputeRadioState n t).radio.SpentDisabled =
        u64add n.radio.SpentDisabled (U64LIM - (n.radio.Timestamp - t))) ∧
    (n.radio.State = RadioStates.RadioRx →
      (ComputeRadioState n t).radio.SpentRx =
        u64add n.radio.SpentRx (U64LIM - (n.radio.Timestamp - t))) ∧
    (n.radio.State = RadioStates.RadioTx →
      (ComputeRadioState n t).radio.SpentTx =
        spentTxAdd n.radio.SpentTx n.txPower (U64LIM - (n.radio.Timestamp - t))) ∧
    (n.radio.State = RadioStates.RadioInvalid →
      (ComputeRadioState n t).radio.SpentDisabled = n.radio.SpentDisabled ∧
      (ComputeRadioState n t).radio.SpentSleep = n.radio.SpentSleep ∧
      (ComputeRadioState n t).radio.SpentRx = n.radio.SpentRx ∧
      (ComputeRadioState n t).radio.SpentTx = n.radio.SpentTx) := by
  have hd : u64sub t n.radio.Timestamp = U64LIM - (n.radio.Timestamp - t) :=
    u64sub_of_lt h1 h2
  refine ⟨hd, rfl, ?_, ?_, ?_, ?_, ?_, ?_⟩
  · intro hs
    simp [ComputeRadioState, hs, hd]
  · intro hs hm
    simp [ComputeRadioState, hs, hm, hd]
  · intro hs hm
    simp [ComputeRadioState, hs, hm, hd]
  · intro hs
    simp [ComputeRadioState, hs, hd]
  · intro hs
    simp [ComputeRadioState, hs, hd]
  · intro hs
    simp [ComputeRadioState, hs]

/-- Witness for C10: querying timestamp 3 on a disabled tracker stored at
timestamp 10 yields the wrapped delta `2^64 - 7`, adds it to the disabled
bucket, and moves the timestamp backwards to 3. -/
theorem C10_witness :
    u64sub 3 disabledLateNode.radio.Timestamp =
      U64LIM - (disabledLateNode.radio.Timestamp - 3) ∧
    (ComputeRadioState disabledLateNode 3).radio.Timestamp = 3 ∧
    (ComputeRadioState disabledLateNode 3).radio.SpentDisabled =
      u64add disabledLateNode.radio.SpentDisabled
        (U64LIM - (disabledLateNode.radio.Timestamp - 3)) :=
  ⟨(C10_clock_regression disabledLateNode 3 (by decide) (by decide)).1,
   (C10_clock_regression disabledLateNode 3 (by decide) (by decide)).2.1,
   (C10_clock_regression disabledLateNode 3 (by decide) (by decide)).2.2.1 rfl⟩

/-! ### Analyser history lemmas -/

theorem storeLoop_timestamp (t : Nat) (ns : ℚ) :
    ∀ (nodes : List (Int × NodeEnergy)) (snap : NetworkConsumption)
      (batch : List NodeEnergy) (nodes2 : List (Int × NodeEnergy))
      (snapF : NetworkConsumption) (batchF : List NodeEnergy),
      storeLoop t ns nodes snap batch = some (nodes2, snapF, batchF) →
      snapF.Timestamp = snap.Timestamp := by
  intro nodes
  induction nodes with
  | nil =>
      intro snap batch n2 sF bF h
      simp only [storeLoop, Option.some.injEq, Prod.mk.injEq] at h
      obtain ⟨-, h2, -⟩ := h
      rw [← h2]
  | cons p rest ih =>
      intro snap batch n2 sF bF h
      obtain ⟨id, node⟩ := p
      simp only [storeLoop] at h
      split at h
      · exact absurd h (by simp)
      · split at h
        · exact absurd h (by simp)
        · rename_i node2 en heq r2 sF2 bF2 hrec
          simp only [Option.some.injEq, Prod.mk.injEq] at h
          obtain ⟨-, h2, -⟩ := h
          have hrec2 := ih _ _ _ _ _ hrec
          rw [← h2]
          exact hrec2
  
theorem storeNetworkEnergy_appends (e : EnergyAnalyser) (t : Nat) (e' : EnergyAnalyser)
    (h : e.StoreNetworkEnergy t = some e') :
    ∃ snap batch, snap.Timestamp = t ∧
      e'.networkHistory = e.networkHistory ++ [snap] ∧
      e'.energyHistoryByNodes = e.energyHistoryByNodes ++ [batch] ∧
      e'.title = e.title := by
  unfold EnergyAnalyser.StoreNetworkEnergy at h
  split at h
  · exact absurd h (by simp)
  · rename_i nodes2 snap batch hsl
    simp only [Option.some.injEq] at h
    subst h
    exact ⟨snap, batch, storeLoop_timestamp t _ e.nodes _ [] _ _ _ hsl, rfl, rfl, rfl⟩

theorem addNode_frame (e : EnergyAnalyser) (reg : List (String × DeviceModel))
    (nodeID : Int) (timestamp : Nat) (model : String) (txPower : Int)
    (nodeMode : NodeMode) :
    (e.AddNode reg nodeID timestamp model txPower nodeMode).networkHistory =
      e.networkHistory ∧
    (e.AddNode reg nodeID timestamp model txPower nodeMode).energyHistoryByNodes =
      e.energyHistoryByNodes := by
  unfold EnergyAnalyser.AddNode
  split <;> exact ⟨rfl, rfl⟩

theorem deleteNode_hist (e : EnergyAnalyser) (nodeID : Int) :
    ((e.DeleteNode nodeID).networkHistory = e.networkHistory ∧
     (e.DeleteNode nodeID).energyHistoryByNodes = e.energyHistoryByNodes) ∨
    ((e.DeleteNode nodeID).networkHistory = [] ∧
     (e.DeleteNode nodeID).energyHistoryByNodes = []) := by
  by_cases hc : (e.nodes.filter fun p => p.1 != nodeID).isEmpty
  · right
    constructor <;> simp [EnergyAnalyser.DeleteNode, EnergyAnalyser.ClearEnergyData, hc]
  · left
    constructor <;> simp [EnergyAnalyser.DeleteNode, hc]

theorem setDeviceModel_frame (e : EnergyAnalyser) (reg : List (String × DeviceModel))
    (nodeID : Int) (model : String) (b : Bool) (e' : EnergyAnalyser)
    (h : e.SetDeviceModel reg nodeID model = some (b, e')) :
    b = false ∧ e' = e := by
  unfold EnergyAnalyser.SetDeviceModel at h
  split at h
  · simp only [Option.some.injEq, Prod.mk.injEq] at h
    exact ⟨h.1.symm, h.2.symm⟩
  · split at h
    · simp only [Option.some.injEq, Prod.mk.injEq] at h
      exact ⟨h.1.symm, h.2.symm⟩
    · exact absurd h (by simp)

/-- Invariant: in every reachable analyser state the two history sequences
have equal length. -/
theorem reachable_hist_len {e : EnergyAnalyser} (h : Reachable e) :
    e.networkHistory.length = e.energyHistoryByNodes.length := by
  induction h with
  | init => rfl
  | addNode reg nodeID timestamp model txPower nodeMode h ih =>
      obtain ⟨h1, h2⟩ := addNode_frame _ reg nodeID timestamp model txPower nodeMode
      rw [h1, h2]
      exact ih
  | deleteNode nodeID h ih =>
      rcases deleteNode_hist _ nodeID with ⟨h1, h2⟩ | ⟨h1, h2⟩
      · rw [h1, h2]
        exact ih
      · rw [h1, h2]
        rfl
  | store timestamp h hs ih =>
      obtain ⟨snap, batch, -, h1, h2, -⟩ := storeNetworkEnergy_appends _ _ _ hs
      rw [h1, h2]
      simp [ih]
  | clear h ih => rfl
  | setTitle t h ih => exact ih
  | setDeviceModel reg nodeID model h hs ih =>
      obtain ⟨-, he⟩ := setDeviceModel_frame _ reg nodeID model _ _ hs
      rw [he]
      exact ih
  | setRadio nodeID s timestamp h ih => exact ih

/-- C4 (amended): Zero-node snapshot capture. When `StoreNetworkEnergy` is
invoked while the active-node count is zero, no error condition is raised
and no division is performed (the per-node loop is empty): the call
appends a zero-valued network snapshot carrying the given timestamp to the
network history and an empty batch to the per-node history. (The original
claim — an explicit "no active nodes" error with both histories left
unchanged — fails: see the counterexample.) -/
theorem C4_zero_node_capture (e : EnergyAnalyser) (t : Nat) (h : e.nodes = []) :
    e.StoreNetworkEnergy t =
      some { e with
        networkHistory := e.networkHistory ++
          [{ Timestamp := t, EnergyConsDisabled := 0, EnergyConsSleep := 0,
             EnergyConsTx := 0, EnergyConsRx := 0 }],
        energyHistoryByNodes := e.energyHistoryByNodes ++ [[]] } := by
  unfold EnergyAnalyser.StoreNetworkEnergy
  rw [h]
  simp [storeLoop]

/-- Witness for C4 (amended): capturing on the fresh analyser appends the
zero snapshot at timestamp 5 and an empty batch. -/
theorem C4_witness :
    NewEnergyAnalyser.StoreNetworkEnergy 5 =
      some { NewEnergyAnalyser with
        networkHistory := NewEnergyAnalyser.networkHistory ++
          [{ Timestamp := 5, EnergyConsDisabled := 0, EnergyConsSleep := 0,
             EnergyConsTx := 0, EnergyConsRx := 0 }],
        energyHistoryByNodes := NewEnergyAnalyser.energyHistoryByNodes ++ [[]] } :=
  C4_zero_node_capture NewEnergyAnalyser 5 rfl

/-- Counterexample to C4 as stated: with zero active nodes the capture at
timestamp 5 succeeds (no error value) and grows both histories, so the
histories are NOT left unchanged. -/
theorem C4_counterexample :
    NewEnergyAnalyser.nodes = [] ∧
    NewEnergyAnalyser.StoreNetworkEnergy 5 =
      some { nodes := [],
             networkHistory :=
               [{ Timestamp := 5, EnergyConsDisabled := 0, EnergyConsSleep := 0,
                  EnergyConsTx := 0, EnergyConsRx := 0 }],
             energyHistoryByNodes := [[]],
             title := "" } ∧
    ([{ Timestamp := 5, EnergyConsDisabled := 0, EnergyConsSleep := 0,
        EnergyConsTx := 0, EnergyConsRx := 0 }] : List NetworkConsumption) ≠
      NewEnergyAnalyser.networkHistory :=
  ⟨rfl, by decide, by decide⟩

/-- C7: Paired-history invariant. In every reachable analyser state the
network-snapshot sequence and the per-node-batch sequence have equal
length; a successful capture appends exactly one snapshot (carrying the
capture timestamp) and one batch in the same step; and the clear operation
empties both together. -/
theorem C7_paired_histories :
    (∀ e, Reachable e → e.networkHistory.length = e.energyHistoryByNodes.length) ∧
    (∀ e t e', EnergyAnalyser.StoreNetworkEnergy e t = some e' →
      ∃ snap batch, snap.Timestamp = t ∧
        e'.networkHistory = e.networkHistory ++ [snap] ∧
        e'.energyHistoryByNodes = e.energyHistoryByNodes ++ [batch]) ∧
    (∀ e, (EnergyAnalyser.ClearEnergyData e).networkHistory = [] ∧
      (EnergyAnalyser.ClearEnergyData e).energyHistoryByNodes = []) := by
  refine ⟨fun e h => reachable_hist_len h, fun e t e' h => ?_, fun e => ⟨rfl, rfl⟩⟩
  obtain ⟨snap, batch, h1, h2, h3, -⟩ := storeNetworkEnergy_appends e t e' h
  exact ⟨snap, batch, h1, h2, h3⟩

/-- Witness for C7: the invariant instantiated at the initial state. -/
theorem C7_witness :
    NewEnergyAnalyser.networkHistory.length =
      NewEnergyAnalyser.energyHistoryByNodes.length :=
  C7_paired_histories.1 NewEnergyAnalyser Reachable.init

theorem getLast?_isSome_of_ne_nil {α : Type} {l : List α} (h : l ≠ []) :
    l.getLast?.isSome = true := by
  cases hl : l.getLast? with
  | some a => rfl
  | none => exact absurd (List.getLast?_eq_none_iff.mp hl) h

/-- C5 (amended): Totality of history reads. In every reachable analyser
state whose histories are non-empty, both latest-snapshot accessors
produce a value. (The original claim — total in EVERY reachable state,
including empty histories — fails: both accessors index position
`len - 1`, which is out of range in the reachable initial state; see the
counterexample, where `none` models the Go out-of-range panic.) -/
theorem C5_latest_accessors (e : EnergyAnalyser) (h : Reachable e)
    (hne : e.networkHistory ≠ []) :
    e.GetNetworkLatestSnap.isSome = true ∧
    e.GetLatestEnergyOfNodes.isSome = true := by
  have hlen := reachable_hist_len h
  have hne2 : e.energyHistoryByNodes ≠ [] := by
    intro hc
    rw [hc] at hlen
    exact hne (List.eq_nil_of_length_eq_zero hlen)
  exact ⟨getLast?_isSome_of_ne_nil hne, getLast?_isSome_of_ne_nil hne2⟩

/-- Witness for C5 (amended): after one capture on the fresh analyser both
accessors produce a value. -/
theorem C5_witness :
    (EnergyAnalyser.GetNetworkLatestSnap
      { nodes := [],
        networkHistory := [{ Timestamp := 5, EnergyConsDisabled := 0,
                             EnergyConsSleep := 0, EnergyConsTx := 0,
                             EnergyConsRx := 0 }],
        energyHistoryByNodes := [[]],
        title := "" }).isSome = true ∧
    (EnergyAnalyser.GetLatestEnergyOfNodes
      { nodes := [],
        networkHistory := [{ Timestamp := 5, EnergyConsDisabled := 0,
                             EnergyConsSleep := 0, EnergyConsTx := 0,
                             EnergyConsRx := 0 }],
        energyHistoryByNodes := [[]],
        title := "" }).isSome = true :=
  C5_latest_accessors _ (Reachable.store 5 Reachable.init (by decide)) (by decide)

/-- Counterexample to C5 as stated: the freshly created analyser is
reachable, both its histories are empty, and both accessors hit the
out-of-range index `len - 1 = -1` (modelled by `none`): the reads do not
produce a value. -/
theorem C5_counterexample :
    Reachable NewEnergyAnalyser ∧
    NewEnergyAnalyser.GetNetworkLatestSnap = none ∧
    NewEnergyAnalyser.GetLatestEnergyOfNodes = none :=
  ⟨Reachable.init, rfl, rfl⟩

/-- C6 (amended): Model reassignment guard. `SetDeviceModel` returns
`false` and changes nothing when the node id IS registered, and also when
the id is unregistered and the model name is absent from the registry;
when the id is unregistered and the model exists, the call dereferences
the missing (nil) tracker and faults (`none`). It never returns `true` and
never swaps any profile. (The original claim — success exactly when the id
is unregistered and the model exists — fails: see the counterexample.) -/
theorem C6_model_reassignment_guard (e : EnergyAnalyser)
    (reg : List (String × DeviceModel)) (nodeID : Int) (model : String) :
    ((mapLookup e.nodes nodeID).isSome = true →
      e.SetDeviceModel reg nodeID model = some (false, e)) ∧
    (mapLookup e.nodes nodeID = none → lookupString reg model = none →
      e.SetDeviceModel reg nodeID model = some (false, e)) ∧
    (mapLookup e.nodes nodeID = none →
      ∀ dm, lookupString reg model = some dm →
        e.SetDeviceModel reg nodeID model = none) ∧
    (∀ b e', e.SetDeviceModel reg nodeID model = some (b, e') →
      b = false ∧ e' = e) := by
  refine ⟨?_, ?_, ?_, fun b e' h => setDeviceModel_frame e reg nodeID model b e' h⟩
  · intro h
    simp [EnergyAnalyser.SetDeviceModel, h]
  · intro h1 h2
    simp [EnergyAnalyser.SetDeviceModel, h1, h2]
  · intro h1 dm h2
    simp [EnergyAnalyser.SetDeviceModel, h1, h2]

/-- Witness for C6 (amended): on the fresh analyser (id 1 unregistered)
with the model present in the registry, the call faults. -/
theorem C6_witness :
    EnergyAnalyser.SetDeviceModel NewEnergyAnalyser demoRegistry 1 "stm32wb55rg" =
      none :=
  (C6_model_reassignment_guard NewEnergyAnalyser demoRegistry 1 "stm32wb55rg").2.2.1
    rfl stm32wb55rg rfl

/-- Counterexample to C6 as stated: id 1 is unregistered and the model
name exists in the registry, yet the operation yields no success value at
all — it faults on the nil tracker (`none`), rather than returning `true`
and swapping a profile. -/
theorem C6_counterexample :
    mapLookup NewEnergyAnalyser.nodes 1 = none ∧
    lookupString demoRegistry "stm32wb55rg" = some stm32wb55rg ∧
    EnergyAnalyser.SetDeviceModel NewEnergyAnalyser demoRegistry 1 "stm32wb55rg" =
      none :=
  ⟨rfl, rfl, rfl⟩

/-- C8: History reset on last deregistration. Deleting the only registered
node empties the node map and resets both histories to empty sequences;
deleting while other nodes remain leaves both histories unchanged. -/
theorem C8_history_reset_on_last_deregistration (e : EnergyAnalyser) (id : Int)
    (n : NodeEnergy) :
    (e.nodes = [(id, n)] →
      (e.DeleteNode id).nodes = [] ∧
      (e.DeleteNode id).networkHistory = [] ∧
      (e.DeleteNode id).energyHistoryByNodes = []) ∧
    (∀ id2 : Int, e.nodes.filter (fun p => p.1 != id2) ≠ [] →
      (e.DeleteNode id2).nodes = e.nodes.filter (fun p => p.1 != id2) ∧
      (e.DeleteNode id2).networkHistory = e.networkHistory ∧
      (e.DeleteNode id2).energyHistoryByNodes = e.energyHistoryByNodes) := by
  constructor
  · intro h
    have hf : e.nodes.filter (fun p => p.1 != id) = [] := by
      rw [h]
      simp
    refine ⟨?_, ?_, ?_⟩ <;>
      simp [EnergyAnalyser.DeleteNode, EnergyAnalyser.ClearEnergyData, hf]
  · intro id2 hne
    have hc : (e.nodes.filter fun p => p.1 != id2).isEmpty = false := by
      cases hl : e.nodes.filter fun p => p.1 != id2 with
      | nil => exact absurd hl hne
      | cons a t => rfl
    refine ⟨?_, ?_, ?_⟩ <;> simp [EnergyAnalyser.DeleteNode, hc]

/-- Witness for C8: deleting node 7 from the one-node analyser empties the
map and resets both histories. -/
theorem C8_witness :
    (oneNodeAnalyser.DeleteNode 7).nodes = [] ∧
    (oneNodeAnalyser.DeleteNode 7).networkHistory = [] ∧
    (oneNodeAnalyser.DeleteNode 7).energyHistoryByNodes = [] :=
  (C8_history_reset_on_last_deregistration oneNodeAnalyser 7
      (newNode demoRegistry 7 0 "stm32wb55rg" 0 { RxOnWhenIdle := false })).1 rfl

/-- C9: Re-registration is a no-op. When the node id is already present,
`AddNode` with any timestamp, model name and power level returns the
analyser completely unchanged — node map, tracker state, both histories
and every other field. -/
theorem C9_reregistration_noop (e : EnergyAnalyser)
    (reg : List (String × DeviceModel)) (nodeID : Int) (timestamp : Nat)
    (model : String) (txPower : Int) (nodeMode : NodeMode)
    (h : (mapLookup e.nodes nodeID).isSome = true) :
    e.AddNode reg nodeID timestamp model txPower nodeMode = e := by
  simp [EnergyAnalyser.AddNode, h]

/-- Witness for C9: re-registering node 7 with different parameters leaves
the one-node analyser untouched. -/
theorem C9_witness :
    oneNodeAnalyser.AddNode [] 7 999 "other" 5 { RxOnWhenIdle := true } =
      oneNodeAnalyser :=
  C9_reregistration_noop oneNodeAnalyser [] 7 999 "other" 5 { RxOnWhenIdle := true }
    (by decide)
